import Mathlib

/-
  Verification development for the token / auth-state / sign-out core of the
  okta-auth-js fork (src/lib/TokenManager.ts, src/lib/AuthStateManager.ts,
  src/lib/browser/browser.ts).

  The TypeScript code is shallowly embedded: stateful methods become pure
  functions that take and return explicit state, event-emitter calls become
  lists of emitted events, promise-based code is split into a synchronous
  start phase and a settle phase parameterized by the outcome of the awaited
  operation, and JS runtime values (duck-typed token objects, truthiness)
  are modelled with Option fields plus explicit truthiness helpers.
-/

namespace Okta

/-- A JS token object as handled by the code: a record of duck-typed fields.
`scopes` is present or absent; `expiresAt` is a number or absent (the
TypeScript `Token` type declares `expiresAt: number`, so a present value is
numeric); `idToken` / `accessToken` are the variant raw-string fields used
by the runtime discrimination. -/
structure Token where
  scopes : Option (List String) := none
  expiresAt : Option Int := none
  idToken : Option String := none
  accessToken : Option String := none
  deriving DecidableEq

/-- An arbitrary JS value passed to `tokenManager.add`: either not an object
(the `isObject(token)` guard fails) or a token-shaped object. -/
inductive TokenInput where
  | notAnObject
  | object (t : Token)
  deriving DecidableEq

/-- Modelled from the spec: `isIDToken` lives in src/lib/types.ts, which is
absent from the provided sources.  The spec (§3, §9) describes the variant
discrimination as duck-typed presence of the ID-token raw-string field. -/
def isIDToken (t : Token) : Bool :=
  t.idToken.isSome

/-- Modelled from the spec: `isAccessToken` lives in src/lib/types.ts, which
is absent from the provided sources.  The spec (§3, §9) describes the variant
discrimination as duck-typed presence of the access-token raw-string field. -/
def isAccessToken (t : Token) : Bool :=
  t.accessToken.isSome

/-- JS truthiness of an optional string: `undefined` and the empty string are
falsy, every other string is truthy. -/
def jsTruthyStr : Option String → Bool
  | none => false
  | some s => s ≠ ""

/-- A JS error value as used by the code: `name`, `message`, and the
fields attached by session / renewal error handling (`errorCode` on API
errors; `tokenKey` and `accessToken` are set on renewal failures). -/
structure JsError where
  name : String
  message : String := ""
  errorCode : Option String := none
  tokenKey : Option String := none
  accessToken : Option Bool := none
  deriving DecidableEq

/-- The `AuthSdkError` thrown by `add` for a malformed token
(TokenManager.ts line 109). -/
def tokenShapeErr : JsError :=
  { name := "AuthSdkError"
    message := "Token must be an Object with scopes, expiresAt, and an idToken or accessToken properties" }

/-- The `AuthSdkError` thrown by `renew` when no token is stored under the
key (TokenManager.ts line 150). -/
def noTokenErr (key : String) : JsError :=
  { name := "AuthSdkError"
    message := "The tokenManager has no token for the key: " ++ key }

/-- Association-list lookup, modelling `obj[key]` on a JS object-as-map. -/
def lookupKey {α : Type} : List (String × α) → String → Option α
  | [], _ => none
  | (k, v) :: rest, key => if k = key then some v else lookupKey rest key

/-- Association-list delete, modelling `delete obj[key]`. -/
def removeKey {α : Type} : List (String × α) → String → List (String × α)
  | [], _ => []
  | (k, v) :: rest, key =>
    if k = key then removeKey rest key else (k, v) :: removeKey rest key

/-- Association-list write, modelling `obj[key] = v`. -/
def setKey {α : Type} (l : List (String × α)) (key : String) (v : α) : List (String × α) :=
  removeKey l key ++ [(key, v)]

/-- A scheduled expiration timeout: the computed wait (milliseconds) and the
token captured by the `setTimeout` closure (TokenManager.ts lines 69-82). -/
structure TimerEntry where
  wait : Int
  token : Token
  deriving DecidableEq

/-- The mutable state of one TokenManager instance: the persisted token
storage, the process-local `expireTimeouts` table, and the `renewPromise`
cache (which we model as key ↦ promise identifier). -/
structure TMState where
  store : List (String × Token)
  expireTimeouts : List (String × TimerEntry)
  renewPromise : List (String × Nat)
  deriving DecidableEq

/-- A freshly constructed TokenManager over empty storage. -/
def initialTM : TMState := { store := [], expireTimeouts := [], renewPromise := [] }

/-- Events emitted on the TokenManager's emitter.  The `added` constructor is
part of the event vocabulary (AuthStateManager subscribes to it), whether or
not anything emits it. -/
inductive TMEvent where
  | added (key : String) (token : Token)
  | removed (key : String)
  | renewed (key : String) (newToken oldToken : Token)
  | expired (key : String) (token : Token)
  | error (e : JsError)
  deriving DecidableEq

/-- `hasExpired` (TokenManager.ts lines 29-37):
`expireTime = token.expiresAt - expireEarlySeconds; expireTime <= clock.now()`.
When `expiresAt` is absent the JS subtraction yields NaN and the comparison
is false, hence the `none` branch. -/
def hasExpired (early now : Int) (t : Token) : Bool :=
  match t.expiresAt with
  | some e => e - early ≤ now
  | none => false

/-- `expireEventWait` computed in `setExpireEventTimeout` (line 71):
`Math.max(expireTime - clock.now(), 0) * 1000`.  Callers reach this only for
tokens whose `expiresAt` passed validation, so `getD 0` is never the NaN
case on the paths we model. -/
def expireEventWait (early now : Int) (t : Token) : Int :=
  max (t.expiresAt.getD 0 - early - now) 0 * 1000

/-- `clearExpireEventTimeout` (lines 51-57): clears the key's timeout AND
deletes the renew promise cache entry for the key. -/
def clearExpireEventTimeout (s : TMState) (key : String) : TMState :=
  { s with expireTimeouts := removeKey s.expireTimeouts key
           renewPromise := removeKey s.renewPromise key }

/-- `setExpireEventTimeout` (lines 69-82): clear any existing timeout for the
key, then schedule a one-shot callback after the computed wait. -/
def setExpireEventTimeout (early now : Int) (s : TMState) (key : String) (t : Token) : TMState :=
  let s1 := clearExpireEventTimeout s key
  { s1 with expireTimeouts := setKey s1.expireTimeouts key ⟨expireEventWait early now t, t⟩ }

/-- `add` (TokenManager.ts lines 103-114).  Validation mirrors the source
condition `!isObject(token) || !token.scopes ||
(!token.expiresAt && token.expiresAt !== 0) || (!isIDToken && !isAccessToken)`;
for a numeric-or-absent `expiresAt` the middle clause is exactly
`expiresAt` absent (0 passes because of the `!== 0` escape).  On failure the
error is thrown before any write, so the state is returned unchanged.  On
success the token is written and the timer rescheduled; note that the source
emits no event here. -/
def add (early now : Int) (s : TMState) (key : String) (v : TokenInput) :
    TMState × List TMEvent × Option JsError :=
  match v with
  | .notAnObject => (s, [], some tokenShapeErr)
  | .object token =>
    if token.scopes.isNone || token.expiresAt.isNone
        || (!isIDToken token && !isAccessToken token) then
      (s, [], some tokenShapeErr)
    else
      let s1 := { s with store := setKey s.store key token }
      (setExpireEventTimeout early now s1 key token, [], none)

/-- `remove` (lines 128-138): clear the timer (and cached renew promise),
delete the key from storage, emit `removed(key)`. -/
def remove (s : TMState) (key : String) : TMState × List TMEvent :=
  let s1 := clearExpireEventTimeout s key
  ({ s1 with store := removeKey s1.store key }, [TMEvent.removed key])

/-- Result of the synchronous part of `renew` (lines 140-158): either the
cached in-flight promise is returned as-is, or the call rejects because no
token is stored, or a fresh renewal is started (which is the only case that
invokes the provider `sdk.token.renew`, exactly once, with the stored
token). -/
inductive RenewStartResult where
  | existing (p : Nat)
  | rejected (e : JsError)
  | started (s' : TMState) (token : Token) (p : Nat)
  deriving DecidableEq

/-- The synchronous phase of `renew` (lines 140-160): return the cached
promise if one is outstanding; otherwise read the token (rejecting when
absent), clear the key's timeout, invoke the provider and store the new
promise (identified by `freshId`) in the cache. -/
def renewStart (s : TMState) (key : String) (freshId : Nat) : RenewStartResult :=
  match lookupKey s.renewPromise key with
  | some p => .existing p
  | none =>
    match lookupKey s.store key with
    | none => .rejected (noTokenErr key)
    | some token =>
      let s1 := clearExpireEventTimeout s key
      .started { s1 with renewPromise := setKey s1.renewPromise key freshId } token freshId

/-- Outcome of an awaited renewal promise as observed by `renew`'s callers. -/
inductive RenewResult where
  | resolved (t : Option Token)
  | rejected (e : JsError)
  deriving DecidableEq

/-- The `catch` handler of `renew` (lines 173-181): for an `OAuthError` or
`AuthSdkError` remove the token, attach `tokenKey` and `accessToken`
(JS `!!token.accessToken` on the token read at renew start) to the error,
emit it, and rethrow; any other error is rethrown untouched. -/
def renewCatch (s : TMState) (key : String) (origToken : Token) (evs : List TMEvent)
    (err : JsError) : TMState × List TMEvent × RenewResult :=
  if err.name = "OAuthError" ∨ err.name = "AuthSdkError" then
    let r := remove s key
    let err' := { err with tokenKey := some key
                           accessToken := some (jsTruthyStr origToken.accessToken) }
    (r.1, evs ++ r.2 ++ [TMEvent.error err'], .rejected err')
  else
    (s, evs, .rejected err)

/-- The `then`/`catch` chain of `renew` (lines 160-181) applied to the
provider outcome: on success re-read the stored token, silently resolving
with `undefined` if it was removed mid-renewal; otherwise write the fresh
token via `add` (whose validation error, thrown inside the `then` handler,
falls through to the `catch` handler) and emit `renewed`. -/
def renewThenCatch (early now : Int) (s : TMState) (key : String) (origToken : Token)
    (outcome : Except JsError Token) : TMState × List TMEvent × RenewResult :=
  match outcome with
  | .error err => renewCatch s key origToken [] err
  | .ok fresh =>
    match lookupKey s.store key with
    | none => (s, [], .resolved none)
    | some oldToken =>
      let r := add early now s key (.object fresh)
      match r.2.2 with
      | none => (r.1, r.2.1 ++ [TMEvent.renewed key fresh oldToken], .resolved (some fresh))
      | some e => renewCatch r.1 key origToken r.2.1 e

/-- The settle phase of `renew`: the `then`/`catch` chain followed by the
`finally` handler (lines 182-185), which deletes the renew promise cache
entry whatever the outcome was. -/
def renewSettle (early now : Int) (s : TMState) (key : String) (origToken : Token)
    (outcome : Except JsError Token) : TMState × List TMEvent × RenewResult :=
  let r := renewThenCatch early now s key origToken outcome
  ({ r.1 with renewPromise := removeKey r.1.renewPromise key }, r.2.1, r.2.2)

/-! ## Auth State Manager (src/lib/AuthStateManager.ts) -/

/-- The `AuthState` snapshot (`{isPending, isAuthenticated, idToken, accessToken}`). -/
structure AuthState where
  isPending : Bool
  isAuthenticated : Bool
  idToken : Option Token
  accessToken : Option Token
  deriving DecidableEq

/-- `DEFAULT_AUTH_STATE` (AuthStateManager.ts lines 6-11). -/
def DEFAULT_AUTH_STATE : AuthState :=
  { isPending := true, isAuthenticated := false, idToken := none, accessToken := none }

/-- `MAX_PROMISE_CANCEL_TIMES` (line 17). -/
def MAX_PROMISE_CANCEL_TIMES : Nat := 10

/-- The `_pending` slot: at most one outstanding cancelable recomputation
(modelled as a promise identifier) plus the cancellation counter. -/
structure PendingState where
  updateAuthStatePromise : Option Nat
  canceledTimes : Nat
  deriving DecidableEq

/-- `DEFAULT_PENDING` (lines 12-15). -/
def DEFAULT_PENDING : PendingState := { updateAuthStatePromise := none, canceledTimes := 0 }

/-- The mutable state of one AuthStateManager instance. -/
structure ASMState where
  authState : AuthState
  pending : PendingState
  deriving DecidableEq

/-- AuthStateManager state right after construction (lines 30-31). -/
def initialASM : ASMState := { authState := DEFAULT_AUTH_STATE, pending := DEFAULT_PENDING }

/-- The `authStateChange` event (payload: a shallow copy of the snapshot). -/
inductive ASMEvent where
  | authStateChange (st : AuthState)
  deriving DecidableEq

/-- Modelled from the spec: `TokenManager._getTokens`, called by
`updateAuthState` (AuthStateManager.ts line 84), is not among the provided
sources.  Per spec §4.2 the recomputation "reads both id and access tokens
from the Token Manager"; the store keys are the two well-known keys
(src/lib/constants.ts, also absent): "accessToken" and "idToken". -/
def getTokens (store : List (String × Token)) : Option Token × Option Token :=
  (lookupKey store "accessToken", lookupKey store "idToken")

/-- The expiry demotion inside the recomputation (lines 91-96):
`if (tok && hasExpired(tok)) tok = null`. -/
def demoteExpired (early now : Int) (t : Option Token) : Option Token :=
  match t with
  | some tok => if hasExpired early now tok then none else some tok
  | none => none

/-- The snapshot construction of `updateAuthState` (lines 91-113): demote
expired tokens to null, determine `isAuthenticated` (caller-supplied
predicate result if configured, else `!!(accessToken && idToken)`), and
spread the previous snapshot with the four fields overridden.  `custom` is
the resolved value of the configured `isAuthenticated(sdk)` predicate, or
`none` when no predicate is configured. -/
def computeSnapshot (early now : Int) (custom : Option Bool) (prev : AuthState)
    (accessRead idRead : Option Token) : AuthState :=
  let accessTok := demoteExpired early now accessRead
  let idTok := demoteExpired early now idRead
  let isAuth :=
    match custom with
    | some b => b
    | none => accessTok.isSome && idTok.isSome
  { prev with accessToken := accessTok, idToken := idTok,
              isAuthenticated := isAuth, isPending := false }

/-- `updateAuthState`'s synchronous entry (lines 65-73, 119): if a
recomputation is in flight and the cancellation counter has reached
`MAX_PROMISE_CANCEL_TIMES`, drop the call; otherwise cancel the in-flight
promise (its `onCancel` nulls the slot and increments the counter,
lines 78-82) and store the new promise (`freshId`).  The returned Bool tells
whether a new recomputation was started. -/
def updateAuthStateCall (asm : ASMState) (freshId : Nat) : ASMState × Bool :=
  match asm.pending.updateAuthStatePromise with
  | some _ =>
    if MAX_PROMISE_CANCEL_TIMES ≤ asm.pending.canceledTimes then
      (asm, false)
    else
      ({ asm with pending := { updateAuthStatePromise := some freshId
                               canceledTimes := asm.pending.canceledTimes + 1 } }, true)
  | none =>
    ({ asm with pending := { updateAuthStatePromise := some freshId
                             canceledTimes := asm.pending.canceledTimes } }, true)

/-- The asynchronous body of a recomputation once it settles (lines 84-117).
`canceled` tells whether `cancelablePromise.isCanceled` was observed at
either suspension-point check: a canceled computation resolves quietly with
no effect.  An uncanceled one reads the tokens, builds the snapshot, stores
it, resets `_pending` to `DEFAULT_PENDING`, and emits `authStateChange`
with a shallow copy (`{...authState}`) of the stored snapshot.  The token
store is returned so that its non-mutation is part of the model. -/
def recomputeSettle (early now : Int) (custom : Option Bool) (canceled : Bool)
    (asm : ASMState) (store : List (String × Token)) :
    ASMState × List (String × Token) × List ASMEvent :=
  if canceled then
    (asm, store, [])
  else
    let reads := getTokens store
    let st := computeSnapshot early now custom asm.authState reads.1 reads.2
    ({ authState := st, pending := DEFAULT_PENDING }, store, [ASMEvent.authStateChange st])

/-- One externally triggered AuthStateManager transition: either an
`updateAuthState` call or the settling of the in-flight recomputation. -/
inductive ASMAction where
  | call (freshId : Nat)
  | settle (canceled : Bool) (early now : Int) (custom : Option Bool)
      (store : List (String × Token))

/-- State reached after one transition. -/
def asmStep (asm : ASMState) (a : ASMAction) : ASMState :=
  match a with
  | .call freshId => (updateAuthStateCall asm freshId).1
  | .settle canceled early now custom store =>
    (recomputeSettle early now custom canceled asm store).1

/-! ## Sign-out / revoke flow (src/lib/browser/browser.ts) -/

/-- Observable side effects of the sign-out flow, in execution order:
token-manager reads/removals/clears, the two provider network calls, and the
navigation calls (`window.location.assign` / `window.location.reload`). -/
inductive Effect where
  | tokenRead (key : String)
  | tokenRemove (key : String)
  | tokensCleared
  | revokeCall (t : Token)
  | sessionCloseCall
  | assign (url : String)
  | reload
  deriving DecidableEq

/-- Navigation effects (the "signal a reload/redirect" calls). -/
def isNavEffect : Effect → Bool
  | .assign _ => true
  | .reload => true
  | _ => false

/-- Provider network calls made by the sign-out flow. -/
def isNetworkEffect : Effect → Bool
  | .revokeCall _ => true
  | .sessionCloseCall => true
  | _ => false

/-- UTF-8 bytes of a character, as byte values. -/
def utf8Bytes (c : Char) : List Nat :=
  let n := c.toNat
  if n < 128 then [n]
  else if n < 2048 then [192 + n / 64, 128 + n % 64]
  else if n < 65536 then [224 + n / 4096, 128 + n / 64 % 64, 128 + n % 64]
  else [240 + n / 262144, 128 + n / 4096 % 64, 128 + n / 64 % 64, 128 + n % 64]

/-- Uppercase hex digit of `n < 16`. -/
def pctHexChar (n : Nat) : Char :=
  if n < 10 then Char.ofNat (48 + n) else Char.ofNat (55 + n)

/-- The byte values JS `encodeURIComponent` leaves unescaped:
`A-Z a-z 0-9 - _ . ! ~ * ' ( )`. -/
def isUnreservedCode (n : Nat) : Bool :=
  (65 ≤ n && n ≤ 90) || (97 ≤ n && n ≤ 122) || (48 ≤ n && n ≤ 57) ||
  n == 45 || n == 95 || n == 46 || n == 33 || n == 126 ||
  n == 42 || n == 39 || n == 40 || n == 41

/-- Percent-encoding of one byte value (37 is the percent character). -/
def encodeByteChars (n : Nat) : List Char :=
  if isUnreservedCode n then [Char.ofNat n]
  else [Char.ofNat 37, pctHexChar (n / 16), pctHexChar (n % 16)]

/-- JS `encodeURIComponent`: percent-encode every UTF-8 byte outside the
unreserved set. -/
def encodeURIComponent (s : String) : String :=
  String.mk ((s.data.map (fun c => ((utf8Bytes c).map encodeByteChars).flatten)).flatten)

/-- JS `a || b` on an optional string: the empty string is falsy and falls
through to the default. -/
def jsOrStr (a : Option String) (b : String) : String :=
  match a with
  | some s => if s = "" then b else s
  | none => b

/-- The browser options consumed by the sign-out flow: the resolved provider
logout endpoint (`getOAuthUrls(this).logoutUrl`) and the configured
`postLogoutRedirectUri`. -/
structure BrowserConfig where
  logoutUrl : String
  postLogoutRedirectUri : Option String := none
  deriving DecidableEq

/-- The pieces of `window.location` read by `signOut`. -/
structure WindowState where
  origin : String
  href : String
  deriving DecidableEq

/-- The `idToken` option of `signOut`: an explicit `false` ("do not use a
token hint") or an explicitly supplied token; `none` at the `SignOutOptions`
level means the option was not passed (JS `undefined`). -/
inductive IdTokenOption where
  | noHint
  | supplied (t : Token)
  deriving DecidableEq

/-- `signOut(options)` (browser.ts lines 260-316).  `revokeAccessToken`
models `options.revokeAccessToken !== false` resolved to a Bool (default
`true`). -/
structure SignOutOptions where
  postLogoutRedirectUri : Option String := none
  accessToken : Option Token := none
  revokeAccessToken : Bool := true
  idToken : Option IdTokenOption := none
  state : Option String := none
  deriving DecidableEq

/-- `closeSession` (browser.ts lines 232-244): clear all local tokens, then
`session.close()`; absorb exactly an `AuthApiError` with `errorCode`
`E0000007` (session already gone), rethrow anything else.  `closeResult` is
the outcome of the provider session-close call. -/
def closeSession (closeResult : Except JsError Unit) : Except JsError Unit × List Effect :=
  let effs := [Effect.tokensCleared, Effect.sessionCloseCall]
  match closeResult with
  | .ok _ => (.ok (), effs)
  | .error e =>
    if e.name = "AuthApiError" ∧ e.errorCode = some "E0000007" then (.ok (), effs)
    else (.error e, effs)

/-- `revokeAccessToken` (browser.ts lines 247-257): with no argument, read
the stored access token and remove it; if no token is available resolve
silently; otherwise `token.revoke(accessToken)` (outcome `revokeResult`).
Returns (result, effects, token store after the call). -/
def revokeAccessToken (store : List (String × Token)) (revokeResult : Except JsError Unit)
    (arg : Option Token) : Except JsError Unit × List Effect × List (String × Token) :=
  match arg with
  | some t => (revokeResult, [Effect.revokeCall t], store)
  | none =>
    let read := lookupKey store "accessToken"
    let effs := [Effect.tokenRead "accessToken", Effect.tokenRemove "accessToken"]
    let store' := removeKey store "accessToken"
    match read with
    | none => (.ok (), effs, store')
    | some t => (revokeResult, effs ++ [Effect.revokeCall t], store')

/-- The id-token resolution step of `signOut` (lines 272, 276-278): an
explicit option (including the explicit `false`) takes precedence over the
token-manager read of the "idToken" key. -/
def resolveIdTokenStep (options : SignOutOptions) (store : List (String × Token)) :
    Option Token × List Effect :=
  match options.idToken with
  | none => (lookupKey store "idToken", [Effect.tokenRead "idToken"])
  | some .noHint => (none, [])
  | some (.supplied t) => (some t, [])

/-- The access-token resolution step of `signOut` (lines 270, 280-282): read
the stored access token only when revocation is enabled and no token was
explicitly supplied. -/
def resolveAccessTokenStep (options : SignOutOptions) (store : List (String × Token)) :
    Option Token × List Effect :=
  if options.revokeAccessToken && options.accessToken.isNone then
    (lookupKey store "accessToken", [Effect.tokenRead "accessToken"])
  else
    (options.accessToken, [])

/-- The raw id-token string used as the hint (line 306, `idToken.idToken`);
JS string concatenation renders an absent field as "undefined". -/
def idTokenHintOf (t : Token) : String :=
  match t.idToken with
  | some s => s
  | none => "undefined"

/-- `signOut(options)` (browser.ts lines 260-316), parameterized by the
outcomes of the provider revoke and session-close calls.  Local tokens are
cleared before the revoke step; the id-token branch performs a single
`window.location.assign` to the built logout URL (appending `&state=` only
for a truthy `options.state`); the no-id-token branch falls back to
`closeSession` and then reloads or redirects depending on whether the
resolved redirect URI equals the current page URI. -/
def signOut (cfg : BrowserConfig) (win : WindowState) (store : List (String × Token))
    (revokeResult closeResult : Except JsError Unit) (options : SignOutOptions) :
    Except JsError Unit × List Effect :=
  let currentUri := win.href
  let postLogoutRedirectUri :=
    jsOrStr options.postLogoutRedirectUri (jsOrStr cfg.postLogoutRedirectUri win.origin)
  let idRes := resolveIdTokenStep options store
  let atRes := resolveAccessTokenStep options store
  let evs0 := idRes.2 ++ atRes.2 ++ [Effect.tokensCleared]
  let revStep : Except JsError Unit × List Effect :=
    if options.revokeAccessToken then
      match atRes.1 with
      | some t =>
        let rv := revokeAccessToken [] revokeResult (some t)
        (rv.1, rv.2.1)
      | none => (.ok (), [])
    else (.ok (), [])
  match revStep.1 with
  | .error e => (.error e, evs0 ++ revStep.2)
  | .ok _ =>
    match idRes.1 with
    | none =>
      let cs := closeSession closeResult
      match cs.1 with
      | .error e => (.error e, evs0 ++ revStep.2 ++ cs.2)
      | .ok _ =>
        if postLogoutRedirectUri = currentUri then
          (.ok (), evs0 ++ revStep.2 ++ cs.2 ++ [Effect.reload])
        else
          (.ok (), evs0 ++ revStep.2 ++ cs.2 ++ [Effect.assign postLogoutRedirectUri])
    | some idTok =>
      let logoutUri := cfg.logoutUrl ++ "?id_token_hint="
        ++ encodeURIComponent (idTokenHintOf idTok)
        ++ "&post_logout_redirect_uri=" ++ encodeURIComponent postLogoutRedirectUri
      let logoutUri :=
        if jsTruthyStr options.state then
          logoutUri ++ "&state=" ++ encodeURIComponent (options.state.getD "")
        else logoutUri
      (.ok (), evs0 ++ revStep.2 ++ [Effect.assign logoutUri])

/-! ## Association-list lemmas -/

theorem lookupKey_removeKey_self {α : Type} (l : List (String × α)) (k : String) :
    lookupKey (removeKey l k) k = none := by
  induction l with
  | nil => rfl
  | cons hd tl ih =>
    by_cases h : hd.1 = k
    · simpa [removeKey, h] using ih
    · simpa [removeKey, lookupKey, h] using ih

theorem lookupKey_append_right {α : Type} (l1 l2 : List (String × α)) (k : String)
    (h : lookupKey l1 k = none) : lookupKey (l1 ++ l2) k = lookupKey l2 k := by
  induction l1 with
  | nil => rfl
  | cons hd tl ih =>
    by_cases hk : hd.1 = k
    · simp [lookupKey, hk] at h
    · simp [lookupKey, hk] at h ⊢
      exact ih h

theorem lookupKey_setKey_self {α : Type} (l : List (String × α)) (k : String) (v : α) :
    lookupKey (setKey l k v) k = some v := by
  unfold setKey
  rw [lookupKey_append_right _ _ _ (lookupKey_removeKey_self l k)]
  simp [lookupKey]

theorem setExpireEventTimeout_store (early now : Int) (s : TMState) (key : String) (t : Token) :
    (setExpireEventTimeout early now s key t).store = s.store := rfl

/-! ## Shared sample tokens and states -/

/-- A well-formed ID token. -/
def demoIdToken : Token :=
  { scopes := some ["openid"], expiresAt := some 1000, idToken := some "idtkn" }

/-- A well-formed access token. -/
def demoAccessToken : Token :=
  { scopes := some ["openid"], expiresAt := some 1000, accessToken := some "acctkn" }

/-- A valid `add` via the source condition: after writing and rescheduling it
holds the shape claimed.  Helper for the renewal success path. -/
theorem add_valid (early now : Int) (s : TMState) (key : String) (t : Token)
    (h1 : t.scopes.isSome = true) (h2 : t.expiresAt.isSome = true)
    (h3 : isIDToken t = true ∨ isAccessToken t = true) :
    add early now s key (.object t) =
      (setExpireEventTimeout early now { s with store := setKey s.store key t } key t,
       [], none) := by
  obtain ⟨sc, ea, it, ak⟩ := t
  cases sc <;> cases ea <;> cases it <;> cases ak <;>
    simp_all [add, isIDToken, isAccessToken]

/-! ## Claim theorems -/

/-- C1: the claim says `tokenManager.add(k, t)` writes `t` into the Token
Store, (re)schedules the expiration timer for `k`, and emits an
`added(k, t)` event.  The code performs the write and the rescheduling but
emits nothing: evaluated at a valid token, the emitted-event list of `add`
is empty (in particular it contains no `added` event), although the store
and timer table were updated and no error was raised.  AuthStateManager
subscribes to `added` (AuthStateManager.ts line 35) and its comment states
the event "is emitted in both add and renew process", so the code
contradicts its own callers: a code bug, not a spec error. -/
theorem C1_add_writes_but_emits_no_event :
    (add 30 0 initialTM "idToken" (.object demoIdToken)).2.1 = [] ∧
    (∀ t, TMEvent.added "idToken" t ∉ (add 30 0 initialTM "idToken" (.object demoIdToken)).2.1) ∧
    lookupKey (add 30 0 initialTM "idToken" (.object demoIdToken)).1.store "idToken" =
      some demoIdToken ∧
    lookupKey (add 30 0 initialTM "idToken" (.object demoIdToken)).1.expireTimeouts "idToken" =
      some ⟨970000, demoIdToken⟩ ∧
    (add 30 0 initialTM "idToken" (.object demoIdToken)).2.2 = none := by
  refine ⟨by decide, ?_, by decide, by decide, by decide⟩
  intro t
  simp [add, demoIdToken, isIDToken, isAccessToken]

/-- C2: while a renewal for a key is outstanding (`renewPromise[key]` set),
a second `renew` returns the identical cached operation — the provider is
invoked only on the `started` branch, which requires an empty cache entry —
so all concurrent callers share one outcome; and the settle phase (the
`finally` handler) removes the cache entry whatever the outcome was. -/
theorem C2_renew_dedup_and_settle_clears_cache :
    (∀ (s : TMState) (key : String) (p freshId : Nat),
       lookupKey s.renewPromise key = some p →
       renewStart s key freshId = RenewStartResult.existing p) ∧
    (∀ (s : TMState) (key : String) (freshId : Nat) (s' : TMState) (tok : Token) (p : Nat),
       renewStart s key freshId = RenewStartResult.started s' tok p →
       lookupKey s.renewPromise key = none) ∧
    (∀ (early now : Int) (s : TMState) (key : String) (orig : Token)
       (outcome : Except JsError Token),
       lookupKey (renewSettle early now s key orig outcome).1.renewPromise key = none) := by
  refine ⟨?_, ?_, ?_⟩
  · intro s key p freshId h
    simp [renewStart, h]
  · intro s key freshId s' tok p h
    cases hc : lookupKey s.renewPromise key with
    | none => rfl
    | some q => simp [renewStart, hc] at h
  · intro early now s key orig outcome
    simp [renewSettle, lookupKey_removeKey_self]

/-- Token-manager state with a renewal outstanding for "k". -/
def c2State : TMState :=
  { store := [("k", demoIdToken)], expireTimeouts := [], renewPromise := [("k", 7)] }

theorem C2_witness :
    renewStart c2State "k" 9 = RenewStartResult.existing 7 ∧
    lookupKey (renewSettle 30 0 c2State "k" demoIdToken
        (Except.error { name := "NetworkError" })).1.renewPromise "k" = none :=
  ⟨C2_renew_dedup_and_settle_clears_cache.1 c2State "k" 7 9 (by decide),
   C2_renew_dedup_and_settle_clears_cache.2.2 30 0 c2State "k" demoIdToken
     (Except.error { name := "NetworkError" })⟩

/-- C5: when the awaited renewal fails with an `OAuthError` or
`AuthSdkError` (the fixed classification set), the key is removed from the
store and an `error` event is emitted carrying the failed key and the
access-token flag; any other failure is rethrown with no store mutation and
no event.  (The removal itself also emits the `removed` event, as `remove`
always does.) -/
theorem C5_renew_failure (early now : Int) (s : TMState) (key : String) (orig : Token)
    (err : JsError) :
    (err.name = "OAuthError" ∨ err.name = "AuthSdkError" →
      lookupKey (renewSettle early now s key orig (Except.error err)).1.store key = none ∧
      (renewSettle early now s key orig (Except.error err)).2.1 =
        [TMEvent.removed key,
         TMEvent.error { err with tokenKey := some key,
                                  accessToken := some (jsTruthyStr orig.accessToken) }] ∧
      (renewSettle early now s key orig (Except.error err)).2.2 =
        RenewResult.rejected { err with tokenKey := some key,
                                        accessToken := some (jsTruthyStr orig.accessToken) }) ∧
    (¬(err.name = "OAuthError" ∨ err.name = "AuthSdkError") →
      (renewSettle early now s key orig (Except.error err)).1.store = s.store ∧
      (renewSettle early now s key orig (Except.error err)).2.1 = [] ∧
      (renewSettle early now s key orig (Except.error err)).2.2 = RenewResult.rejected err) := by
  constructor
  · intro h
    simp [renewSettle, renewThenCatch, renewCatch, h, remove, clearExpireEventTimeout,
      lookupKey_removeKey_self]
  · intro h
    simp [renewSettle, renewThenCatch, renewCatch, h]

/-- State holding an access token under "k" with a renewal outstanding. -/
def c5State : TMState :=
  { store := [("k", demoAccessToken)], expireTimeouts := [], renewPromise := [("k", 3)] }

/-- A provider-rejection error. -/
def c5Err : JsError := { name := "OAuthError" }

theorem C5_witness :
    lookupKey (renewSettle 30 0 c5State "k" demoAccessToken
      (Except.error c5Err)).1.store "k" = none ∧
    (renewSettle 30 0 c5State "k" demoAccessToken (Except.error c5Err)).2.1 =
      [TMEvent.removed "k",
       TMEvent.error { c5Err with tokenKey := some "k", accessToken := some true }] ∧
    (renewSettle 30 0 c5State "k" demoAccessToken (Except.error c5Err)).2.2 =
      RenewResult.rejected { c5Err with tokenKey := some "k", accessToken := some true } :=
  (C5_renew_failure 30 0 c5State "k" demoAccessToken c5Err).1 (Or.inl rfl)

/-- C6: when the awaited renewal succeeds and the key still exists in the
store, the fresh token is written via `add`, a `renewed(key, new, old)`
event is emitted, and the operation resolves with the new token; when the
key was removed mid-renewal the result is silently discarded — the store is
not written, no `renewed` event is emitted, and the promise resolves with
`undefined`. -/
theorem C6_renew_success (early now : Int) (s : TMState) (key : String) (orig fresh : Token)
    (hv : fresh.scopes.isSome = true ∧ fresh.expiresAt.isSome = true ∧
      (isIDToken fresh = true ∨ isAccessToken fresh = true)) :
    (lookupKey s.store key = some orig →
      lookupKey (renewSettle early now s key orig (Except.ok fresh)).1.store key = some fresh ∧
      (renewSettle early now s key orig (Except.ok fresh)).2.1 =
        [TMEvent.renewed key fresh orig] ∧
      (renewSettle early now s key orig (Except.ok fresh)).2.2 =
        RenewResult.resolved (some fresh)) ∧
    (lookupKey s.store key = none →
      (renewSettle early now s key orig (Except.ok fresh)).1.store = s.store ∧
      (renewSettle early now s key orig (Except.ok fresh)).2.1 = [] ∧
      (renewSettle early now s key orig (Except.ok fresh)).2.2 =
        RenewResult.resolved none) := by
  obtain ⟨h1, h2, h3⟩ := hv
  constructor
  · intro hOld
    simp [renewSettle, renewThenCatch, hOld, add_valid early now s key fresh h1 h2 h3,
      setExpireEventTimeout_store, lookupKey_setKey_self]
  · intro hNone
    simp [renewSettle, renewThenCatch, hNone]

/-- The fresh token produced by the provider renewal. -/
def c6Fresh : Token :=
  { scopes := some ["openid"], expiresAt := some 2000, accessToken := some "newacc" }

/-- State holding the old access token under "k". -/
def c6State : TMState :=
  { store := [("k", demoAccessToken)], expireTimeouts := [], renewPromise := [("k", 4)] }

theorem C6_witness :
    lookupKey (renewSettle 30 0 c6State "k" demoAccessToken
      (Except.ok c6Fresh)).1.store "k" = some c6Fresh ∧
    (renewSettle 30 0 c6State "k" demoAccessToken (Except.ok c6Fresh)).2.1 =
      [TMEvent.renewed "k" c6Fresh demoAccessToken] ∧
    (renewSettle 30 0 c6State "k" demoAccessToken (Except.ok c6Fresh)).2.2 =
      RenewResult.resolved (some c6Fresh) :=
  (C6_renew_success 30 0 c6State "k" demoAccessToken c6Fresh (by decide)).1 (by decide)

/-- C8: `closeSession` clears all local tokens and then performs the
session-close call; it resolves exactly when that call succeeds or rejects
with the one absorbed condition (an `AuthApiError` carrying the
resource-not-found code `E0000007`, i.e. the session was already gone); any
other rejection propagates unchanged. -/
theorem C8_closeSession (r : Except JsError Unit) :
    (closeSession r).2 = [Effect.tokensCleared, Effect.sessionCloseCall] ∧
    ((closeSession r).1 = Except.ok () ↔
      r = Except.ok () ∨ ∃ e, r = Except.error e ∧ e.name = "AuthApiError" ∧
        e.errorCode = some "E0000007") ∧
    ∀ e, r = Except.error e →
      ¬(e.name = "AuthApiError" ∧ e.errorCode = some "E0000007") →
      (closeSession r).1 = Except.error e := by
  refine ⟨?_, ?_, ?_⟩
  · cases r with
    | ok u => rfl
    | error e =>
      simp only [closeSession]
      split <;> rfl
  · cases r with
    | ok u => simp [closeSession]
    | error e =>
      simp only [closeSession]
      split
      · rename_i hcond
        simp only [true_iff]
        exact Or.inr ⟨e, rfl, hcond⟩
      · rename_i hcond
        constructor
        · intro h
          exact absurd h (by simp)
        · rintro (h | ⟨e', he', hn, hc⟩)
          · exact absurd h (by simp)
          · cases Except.error.inj he'
            exact absurd ⟨hn, hc⟩ hcond
  · intro e he hn
    subst he
    simp only [closeSession]
    rw [if_neg hn]

/-- A session-close rejection outside the absorbed condition. -/
def c8OtherErr : JsError := { name := "AuthApiError", errorCode := some "E0000005" }

theorem C8_witness :
    (closeSession (Except.error c8OtherErr)).1 = Except.error c8OtherErr :=
  (C8_closeSession (Except.error c8OtherErr)).2.2 c8OtherErr rfl (by decide)

/-- C9 counterexample: the claim requires exactly one variant predicate
(xor); a token carrying both an `idToken` and an `accessToken` field
satisfies both predicates yet is accepted by `add` (no error), because the
source only rejects when *neither* predicate holds
(`!isIDToken(token) && !isAccessToken(token)`). -/
def bothVariantToken : Token :=
  { scopes := some ["openid"], expiresAt := some 100,
    idToken := some "i", accessToken := some "a" }

theorem C9_counterexample :
    isIDToken bothVariantToken = true ∧ isAccessToken bothVariantToken = true ∧
    (add 30 0 initialTM "k" (.object bothVariantToken)).2.2 = none := by
  decide

/-- `add` either rejects with the shape error, leaving everything untouched,
or succeeds. -/
theorem add_result_cases (early now : Int) (s : TMState) (key : String) (v : TokenInput) :
    add early now s key v = (s, [], some tokenShapeErr) ∨
    (add early now s key v).2.2 = none := by
  cases v with
  | notAnObject => exact Or.inl rfl
  | object t =>
    simp only [add]
    split
    · exact Or.inl rfl
    · exact Or.inr rfl

/-- C9 (amended): `add` accepts a value exactly when it is an object
carrying `scopes`, a numeric `expiresAt` (0 allowed), and satisfying at
least one of the two variant predicates; any other value is rejected at
write time with a synchronously thrown `AuthSdkError` and the store, timer
table, and event stream are left untouched. -/
theorem C9_add_validation (early now : Int) (s : TMState) (key : String) (v : TokenInput) :
    ((add early now s key v).2.2 = none ↔
      ∃ t, v = TokenInput.object t ∧ t.scopes.isSome = true ∧ t.expiresAt.isSome = true ∧
        (isIDToken t = true ∨ isAccessToken t = true)) ∧
    ∀ e, (add early now s key v).2.2 = some e →
      e = tokenShapeErr ∧ (add early now s key v).1 = s ∧
        (add early now s key v).2.1 = [] := by
  constructor
  · cases v with
    | notAnObject => simp [add]
    | object t =>
      obtain ⟨sc, ea, it, ak⟩ := t
      cases sc <;> cases ea <;> cases it <;> cases ak <;>
        simp [add, isIDToken, isAccessToken]
  · intro e he
    rcases add_result_cases early now s key v with h | h
    · rw [h] at he ⊢
      exact ⟨(Option.some.inj he).symm, rfl, rfl⟩
    · rw [h] at he
      exact absurd he (by simp)

theorem C9_witness :
    tokenShapeErr = tokenShapeErr ∧
    (add 30 0 initialTM "k" TokenInput.notAnObject).1 = initialTM ∧
    (add 30 0 initialTM "k" TokenInput.notAnObject).2.1 = [] :=
  (C9_add_validation 30 0 initialTM "k" TokenInput.notAnObject).2 tokenShapeErr (by decide)

/-- C10: `revokeAccessToken` called with an explicitly supplied token does
not read or mutate the token store and performs only the provider revoke
call with that token, propagating its outcome; the store read followed by
removal of the stored access token happens only on calls without a token
argument. -/
theorem C10_revokeAccessToken (store : List (String × Token)) (r : Except JsError Unit)
    (t : Token) :
    revokeAccessToken store r (some t) = (r, [Effect.revokeCall t], store) ∧
    (revokeAccessToken store r none).2.2 = removeKey store "accessToken" ∧
    ∃ rest, (revokeAccessToken store r none).2.1 =
      Effect.tokenRead "accessToken" :: Effect.tokenRemove "accessToken" :: rest := by
  refine ⟨rfl, ?_, ?_⟩
  · cases h : lookupKey store "accessToken" <;> simp [revokeAccessToken, h]
  · cases h : lookupKey store "accessToken" with
    | none => exact ⟨[], by simp [revokeAccessToken, h]⟩
    | some tok => exact ⟨[Effect.revokeCall tok], by simp [revokeAccessToken, h]⟩

/-- C3: an uncanceled recomputation leaves the token store untouched (the
frame: expired tokens are excluded, not removed), demotes any token whose
`hasExpired` is true to null in the snapshot, computes `isAuthenticated`
from the caller-supplied predicate's result when one is configured and
otherwise as "access token present AND id token present" (in the snapshot),
stores the snapshot with `isPending = false`, and emits exactly one
`authStateChange` carrying a (shallow) copy of that stored snapshot. -/
theorem C3_recompute_uncanceled (early now : Int) (custom : Option Bool) (asm : ASMState)
    (store : List (String × Token)) :
    (recomputeSettle early now custom false asm store).2.1 = store ∧
    (recomputeSettle early now custom false asm store).1.authState.accessToken =
      (match lookupKey store "accessToken" with
       | some t => if hasExpired early now t then none else some t
       | none => none) ∧
    (recomputeSettle early now custom false asm store).1.authState.idToken =
      (match lookupKey store "idToken" with
       | some t => if hasExpired early now t then none else some t
       | none => none) ∧
    (recomputeSettle early now custom false asm store).1.authState.isAuthenticated =
      custom.getD
        ((recomputeSettle early now custom false asm store).1.authState.accessToken.isSome &&
         (recomputeSettle early now custom false asm store).1.authState.idToken.isSome) ∧
    (recomputeSettle early now custom false asm store).1.authState.isPending = false ∧
    (recomputeSettle early now custom false asm store).2.2 =
      [ASMEvent.authStateChange (recomputeSettle early now custom false asm store).1.authState] := by
  refine ⟨rfl, rfl, rfl, ?_, rfl, rfl⟩
  cases custom <;> rfl

/-- Each AuthStateManager transition keeps the cancellation counter at or
below the ceiling. -/
theorem asmStep_counter_le (asm : ASMState) (a : ASMAction)
    (h : asm.pending.canceledTimes ≤ MAX_PROMISE_CANCEL_TIMES) :
    (asmStep asm a).pending.canceledTimes ≤ MAX_PROMISE_CANCEL_TIMES := by
  cases a with
  | call freshId =>
    simp only [asmStep, updateAuthStateCall]
    cases hp : asm.pending.updateAuthStatePromise with
    | none => exact h
    | some p =>
      by_cases hc : MAX_PROMISE_CANCEL_TIMES ≤ asm.pending.canceledTimes
      · rw [if_pos hc]
        exact h
      · rw [if_neg hc]
        show asm.pending.canceledTimes + 1 ≤ MAX_PROMISE_CANCEL_TIMES
        simp only [MAX_PROMISE_CANCEL_TIMES] at hc ⊢
        omega
  | settle canceled early now custom store =>
    cases canceled with
    | false => simp [asmStep, recomputeSettle, DEFAULT_PENDING]
    | true => exact h

/-- The counter bound is preserved along any sequence of transitions. -/
theorem asmFold_counter_le (actions : List ASMAction) (asm : ASMState)
    (h : asm.pending.canceledTimes ≤ MAX_PROMISE_CANCEL_TIMES) :
    (actions.foldl asmStep asm).pending.canceledTimes ≤ MAX_PROMISE_CANCEL_TIMES := by
  induction actions generalizing asm with
  | nil => exact h
  | cons a rest ih => exact ih _ (asmStep_counter_le asm a h)

/-- C4: with a recomputation in flight, a call finding the cancellation
counter at the ceiling is dropped (state untouched, nothing canceled);
below the ceiling the in-flight promise is canceled and replaced by the new
one, incrementing the counter; a canceled recomputation settles with no
`authStateChange` and no change to the stored state; an uncanceled one
resets the pending slot (counter zero) on completion; and along every
transition sequence from the initial state the counter never exceeds
the ceiling `MAX_PROMISE_CANCEL_TIMES`. -/
theorem C4_cancellation_policy :
    (∀ (asm : ASMState) (freshId p : Nat),
       asm.pending.updateAuthStatePromise = some p →
       MAX_PROMISE_CANCEL_TIMES ≤ asm.pending.canceledTimes →
       updateAuthStateCall asm freshId = (asm, false)) ∧
    (∀ (asm : ASMState) (freshId p : Nat),
       asm.pending.updateAuthStatePromise = some p →
       asm.pending.canceledTimes < MAX_PROMISE_CANCEL_TIMES →
       updateAuthStateCall asm freshId =
         ({ asm with pending := { updateAuthStatePromise := some freshId
                                  canceledTimes := asm.pending.canceledTimes + 1 } }, true)) ∧
    (∀ (early now : Int) (custom : Option Bool) (asm : ASMState)
       (store : List (String × Token)),
       recomputeSettle early now custom true asm store = (asm, store, [])) ∧
    (∀ (early now : Int) (custom : Option Bool) (asm : ASMState)
       (store : List (String × Token)),
       (recomputeSettle early now custom false asm store).1.pending = DEFAULT_PENDING) ∧
    (∀ actions : List ASMAction,
       (actions.foldl asmStep initialASM).pending.canceledTimes ≤
         MAX_PROMISE_CANCEL_TIMES) := by
  refine ⟨?_, ?_, ?_, ?_, ?_⟩
  · intro asm freshId p hp hc
    simp [updateAuthStateCall, hp, hc]
  · intro asm freshId p hp hc
    simp [updateAuthStateCall, hp, Nat.not_le.mpr hc]
  · intro early now custom asm store
    rfl
  · intro early now custom asm store
    rfl
  · intro actions
    exact asmFold_counter_le actions initialASM (by decide)

/-- An in-flight recomputation whose cancellation counter sits at the
ceiling. -/
def c4AtCeiling : ASMState :=
  { authState := DEFAULT_AUTH_STATE
    pending := { updateAuthStatePromise := some 1, canceledTimes := 10 } }

/-- An in-flight recomputation whose cancellation counter is below the
ceiling. -/
def c4BelowCeiling : ASMState :=
  { authState := DEFAULT_AUTH_STATE
    pending := { updateAuthStatePromise := some 1, canceledTimes := 2 } }

theorem C4_witness :
    updateAuthStateCall c4AtCeiling 5 = (c4AtCeiling, false) ∧
    updateAuthStateCall c4BelowCeiling 5 =
      ({ c4BelowCeiling with pending := { updateAuthStatePromise := some 5
                                          canceledTimes := 3 } }, true) :=
  ⟨C4_cancellation_policy.1 c4AtCeiling 5 1 rfl (by decide),
   C4_cancellation_policy.2.1 c4BelowCeiling 5 1 rfl (by decide)⟩

/-! ## C7: the logout-redirect branch of `signOut` -/

theorem resolveIdTokenStep_effects (options : SignOutOptions) (store : List (String × Token)) :
    (resolveIdTokenStep options store).2 = [] ∨
    (resolveIdTokenStep options store).2 = [Effect.tokenRead "idToken"] := by
  cases h : options.idToken with
  | none => exact Or.inr (by simp [resolveIdTokenStep, h])
  | some o => cases o <;> exact Or.inl (by simp [resolveIdTokenStep, h])

theorem resolveAccessTokenStep_effects (options : SignOutOptions)
    (store : List (String × Token)) :
    (resolveAccessTokenStep options store).2 = [] ∨
    (resolveAccessTokenStep options store).2 = [Effect.tokenRead "accessToken"] := by
  by_cases h : (options.revokeAccessToken && options.accessToken.isNone) = true
  · exact Or.inr (by simp [resolveAccessTokenStep, h])
  · exact Or.inl (by simp [resolveAccessTokenStep, h])

/-- On the id-token branch (with the provider revoke succeeding), `signOut`
resolves and its effect trace is: the resolution reads, the token clear, the
optional revoke call, and one final `assign` to the built logout URL. -/
theorem signOut_idToken_shape (cfg : BrowserConfig) (win : WindowState)
    (store : List (String × Token)) (closeResult : Except JsError Unit)
    (options : SignOutOptions) (t : Token)
    (hId : (resolveIdTokenStep options store).1 = some t) :
    signOut cfg win store (Except.ok ()) closeResult options =
      (Except.ok (),
       (resolveIdTokenStep options store).2 ++ (resolveAccessTokenStep options store).2
         ++ [Effect.tokensCleared]
         ++ (if options.revokeAccessToken then
               match (resolveAccessTokenStep options store).1 with
               | some t' => [Effect.revokeCall t']
               | none => []
             else [])
         ++ [Effect.assign
              (if jsTruthyStr options.state then
                cfg.logoutUrl ++ "?id_token_hint=" ++ encodeURIComponent (idTokenHintOf t)
                  ++ "&post_logout_redirect_uri="
                  ++ encodeURIComponent (jsOrStr options.postLogoutRedirectUri
                       (jsOrStr cfg.postLogoutRedirectUri win.origin))
                  ++ "&state=" ++ encodeURIComponent (options.state.getD "")
              else
                cfg.logoutUrl ++ "?id_token_hint=" ++ encodeURIComponent (idTokenHintOf t)
                  ++ "&post_logout_redirect_uri="
                  ++ encodeURIComponent (jsOrStr options.postLogoutRedirectUri
                       (jsOrStr cfg.postLogoutRedirectUri win.origin)))]) := by
  cases hra : options.revokeAccessToken <;>
    cases hat : (resolveAccessTokenStep options store).1 <;>
      simp [signOut, hId, hra, hat, revokeAccessToken]

theorem resolveIdTokenStep_no_network (options : SignOutOptions)
    (store : List (String × Token)) :
    ∀ e ∈ (resolveIdTokenStep options store).2, isNetworkEffect e = false := by
  rcases resolveIdTokenStep_effects options store with h | h <;> rw [h] <;>
    simp [isNetworkEffect]

theorem resolveAccessTokenStep_no_network (options : SignOutOptions)
    (store : List (String × Token)) :
    ∀ e ∈ (resolveAccessTokenStep options store).2, isNetworkEffect e = false := by
  rcases resolveAccessTokenStep_effects options store with h | h <;> rw [h] <;>
    simp [isNetworkEffect]

/-- Tokens cleared before any network call: the generic trace split. -/
theorem cleared_before_network (A B C D : List Effect)
    (hA : ∀ e ∈ A, isNetworkEffect e = false) (hB : ∀ e ∈ B, isNetworkEffect e = false) :
    ∃ pre post, A ++ B ++ [Effect.tokensCleared] ++ C ++ D =
      pre ++ Effect.tokensCleared :: post ∧ ∀ e ∈ pre, isNetworkEffect e = false := by
  refine ⟨A ++ B, C ++ D, ?_, ?_⟩
  · simp [List.append_assoc]
  · intro e he
    rcases List.mem_append.mp he with h | h
    · exact hA e h
    · exact hB e h

/-- C7 (amended): for every `signOut` call that resolves an id token (and
whose revoke step succeeds), the navigation performed is a single redirect
to exactly
`logoutUrl ++ "?id_token_hint=" ++ urlencode(idToken) ++
 "&post_logout_redirect_uri=" ++ urlencode(postLogoutRedirectUri)`,
with `"&state=" ++ urlencode(state)` appended if and only if a *truthy*
(non-empty) `state` option was supplied; no session-close call is made on
this path, and local tokens are cleared before any provider network call. -/
theorem C7_logout_redirect (cfg : BrowserConfig) (win : WindowState)
    (store : List (String × Token)) (revokeResult closeResult : Except JsError Unit)
    (options : SignOutOptions) (t : Token)
    (hId : (resolveIdTokenStep options store).1 = some t)
    (hRev : revokeResult = Except.ok ()) :
    (signOut cfg win store revokeResult closeResult options).1 = Except.ok () ∧
    Effect.sessionCloseCall ∉ (signOut cfg win store revokeResult closeResult options).2 ∧
    (jsTruthyStr options.state = false →
      List.filter isNavEffect (signOut cfg win store revokeResult closeResult options).2 =
        [Effect.assign (cfg.logoutUrl ++ "?id_token_hint="
           ++ encodeURIComponent (idTokenHintOf t) ++ "&post_logout_redirect_uri="
           ++ encodeURIComponent (jsOrStr options.postLogoutRedirectUri
                (jsOrStr cfg.postLogoutRedirectUri win.origin)))]) ∧
    (∀ stStr, options.state = some stStr → stStr ≠ "" →
      List.filter isNavEffect (signOut cfg win store revokeResult closeResult options).2 =
        [Effect.assign (cfg.logoutUrl ++ "?id_token_hint="
           ++ encodeURIComponent (idTokenHintOf t) ++ "&post_logout_redirect_uri="
           ++ encodeURIComponent (jsOrStr options.postLogoutRedirectUri
                (jsOrStr cfg.postLogoutRedirectUri win.origin))
           ++ "&state=" ++ encodeURIComponent stStr)]) ∧
    (∃ pre post,
      (signOut cfg win store revokeResult closeResult options).2 =
        pre ++ Effect.tokensCleared :: post ∧
      ∀ e ∈ pre, isNetworkEffect e = false) := by
  subst hRev
  have hsh := signOut_idToken_shape cfg win store closeResult options t hId
  refine ⟨by rw [hsh], ?_, ?_, ?_, ?_⟩
  · rw [hsh]
    rcases resolveIdTokenStep_effects options store with hA | hA <;>
      rcases resolveAccessTokenStep_effects options store with hB | hB <;>
        rw [hA, hB] <;>
          cases hra : options.revokeAccessToken <;>
            cases hat : (resolveAccessTokenStep options store).1 <;>
              simp [hra, hat]
  · intro hst
    rw [hsh]
    rcases resolveIdTokenStep_effects options store with hA | hA <;>
      rcases resolveAccessTokenStep_effects options store with hB | hB <;>
        rw [hA, hB, hst] <;>
          cases hra : options.revokeAccessToken <;>
            cases hat : (resolveAccessTokenStep options store).1 <;>
              simp [hra, hat, isNavEffect]
  · intro stStr hstEq hne
    have hst : jsTruthyStr options.state = true := by simp [jsTruthyStr, hstEq, hne]
    have hgd : options.state.getD "" = stStr := by rw [hstEq]; rfl
    rw [hsh]
    rcases resolveIdTokenStep_effects options store with hA | hA <;>
      rcases resolveAccessTokenStep_effects options store with hB | hB <;>
        rw [hA, hB, hst, hgd] <;>
          cases hra : options.revokeAccessToken <;>
            cases hat : (resolveAccessTokenStep options store).1 <;>
              simp [hra, hat, isNavEffect]
  · rw [hsh]
    exact cleared_before_network _ _ _ _
      (resolveIdTokenStep_no_network options store)
      (resolveAccessTokenStep_no_network options store)

/-- A browser configuration with only the logout endpoint set. -/
def c7Cfg : BrowserConfig := { logoutUrl := "https://o/logout" }

/-- A window on an app page. -/
def c7Win : WindowState := { origin := "https://app", href := "https://app/page" }

/-- `signOut` options supplying an id token and an *empty-string* state. -/
def c7EmptyStateOpts : SignOutOptions :=
  { idToken := some (.supplied demoIdToken), state := some "" }

/-- C7 counterexample: the claim appends `&state=` if and only if a state
option was supplied.  Here a state option *is* supplied (the empty string),
yet the single redirect goes to the URL without any state parameter,
because the source guards the append with JS truthiness (`if (state)`),
which the empty string fails. -/
theorem C7_counterexample :
    c7EmptyStateOpts.state.isSome = true ∧
    (signOut c7Cfg c7Win [] (Except.ok ()) (Except.ok ()) c7EmptyStateOpts).2 =
      [Effect.tokenRead "accessToken", Effect.tokensCleared,
       Effect.assign
         "https://o/logout?id_token_hint=idtkn&post_logout_redirect_uri=https%3A%2F%2Fapp"] ∧
    Effect.assign
        ("https://o/logout?id_token_hint=idtkn&post_logout_redirect_uri=https%3A%2F%2Fapp"
          ++ "&state=") ∉
      (signOut c7Cfg c7Win [] (Except.ok ()) (Except.ok ()) c7EmptyStateOpts).2 := by
  refine ⟨rfl, rfl, by decide⟩

/-- `signOut` options supplying an id token and a non-empty state. -/
def c7StateOpts : SignOutOptions :=
  { idToken := some (.supplied demoIdToken), state := some "foo" }

theorem C7_witness :
    (signOut c7Cfg c7Win [] (Except.ok ()) (Except.ok ()) c7StateOpts).1 = Except.ok () ∧
    Effect.sessionCloseCall ∉
      (signOut c7Cfg c7Win [] (Except.ok ()) (Except.ok ()) c7StateOpts).2 ∧
    (jsTruthyStr c7StateOpts.state = false →
      List.filter isNavEffect
          (signOut c7Cfg c7Win [] (Except.ok ()) (Except.ok ()) c7StateOpts).2 =
        [Effect.assign (c7Cfg.logoutUrl ++ "?id_token_hint="
           ++ encodeURIComponent (idTokenHintOf demoIdToken) ++ "&post_logout_redirect_uri="
           ++ encodeURIComponent (jsOrStr c7StateOpts.postLogoutRedirectUri
                (jsOrStr c7Cfg.postLogoutRedirectUri c7Win.origin)))]) ∧
    (∀ stStr, c7StateOpts.state = some stStr → stStr ≠ "" →
      List.filter isNavEffect
          (signOut c7Cfg c7Win [] (Except.ok ()) (Except.ok ()) c7StateOpts).2 =
        [Effect.assign (c7Cfg.logoutUrl ++ "?id_token_hint="
           ++ encodeURIComponent (idTokenHintOf demoIdToken) ++ "&post_logout_redirect_uri="
           ++ encodeURIComponent (jsOrStr c7StateOpts.postLogoutRedirectUri
                (jsOrStr c7Cfg.postLogoutRedirectUri c7Win.origin))
           ++ "&state=" ++ encodeURIComponent stStr)]) ∧
    (∃ pre post,
      (signOut c7Cfg c7Win [] (Except.ok ()) (Except.ok ()) c7StateOpts).2 =
        pre ++ Effect.tokensCleared :: post ∧
      ∀ e ∈ pre, isNetworkEffect e = false) :=
  C7_logout_redirect c7Cfg c7Win [] (Except.ok ()) (Except.ok ()) c7StateOpts demoIdToken
    rfl rfl

end Okta
